import Mathlib

/-!
Verification of the pool-configuration core of the r2d2 crate
(`src/config.rs`): the `Config<E>` value, its `Builder<E>`, the
eagerly-validating setters, and the default values.

Modelling decisions:
* `time::Duration` is an opaque value type supporting comparison and a zero
  value; we embed it as `Int` (total nanoseconds), with `Duration.zero` and
  `Duration.seconds`.
* Rust `u32` parameters are embedded as `Nat`; the setters store them
  without arithmetic, so no wrap-around can occur.
* A Rust `panic!` (the `assert!` in a setter) is embedded as `Option`:
  a setter that panics returns `none`; a setter with no failure mode is a
  total function.
-/

/-- The `time` crate duration: an opaque value type with comparison and a
zero value, embedded as total nanoseconds. -/
abbrev Duration : Type := Int

/-- `Duration::zero()`. -/
def Duration.zero : Duration := 0

/-- `Duration::seconds(s)`. -/
def Duration.seconds (s : Int) : Duration := s * 1000000000

/-- Modelled from the spec: the `ErrorHandler<E>` capability is declared in
the crate root, outside the provided sources. Per the spec it is a
polymorphic capability with the single operation `handle(error)` that
performs a side effect; we model a handler as a function from the error
value to the list of observable effects the invocation performs. -/
def ErrorHandler (E : Type) : Type := E → List String

/-- Modelled from the spec: the no-op handler performs no observable
action and returns immediately. -/
def NoopErrorHandler {E : Type} : ErrorHandler E := fun _ => []

/-- `Config<E>` from `src/config.rs`: the immutable runtime configuration
of a pool. -/
structure Config (E : Type) where
  pool_size : Nat
  helper_threads : Nat
  test_on_check_out : Bool
  initialization_fail_fast : Bool
  connection_timeout : Duration
  error_handler : ErrorHandler E

/-- `impl Default for Config<E>`: `Config::default()`. -/
def Config.default (E : Type) : Config E where
  pool_size := 10
  helper_threads := 3
  test_on_check_out := true
  initialization_fail_fast := true
  connection_timeout := Duration.seconds 30
  error_handler := NoopErrorHandler

/-- `Builder<E>` from `src/config.rs`: wraps the staged `Config`. -/
structure Builder (E : Type) where
  c : Config E

/-- `Builder::new()`: parameters initialized with their default values. -/
def Builder.new (E : Type) : Builder E := ⟨Config.default E⟩

/-- `Config::builder()`. -/
def Config.builder (E : Type) : Builder E := Builder.new E

/-- `Builder::pool_size`: asserts `pool_size > 0` (panic modelled as
`none`), then stores the value. -/
def Builder.pool_size {E : Type} (b : Builder E) (n : Nat) : Option (Builder E) :=
  if n > 0 then some ⟨{ b.c with pool_size := n }⟩ else none

/-- `Builder::helper_threads`: asserts `helper_threads > 0` (panic
modelled as `none`), then stores the value. -/
def Builder.helper_threads {E : Type} (b : Builder E) (n : Nat) : Option (Builder E) :=
  if n > 0 then some ⟨{ b.c with helper_threads := n }⟩ else none

/-- `Builder::test_on_check_out`: unconditional set. -/
def Builder.test_on_check_out {E : Type} (b : Builder E) (v : Bool) : Builder E :=
  ⟨{ b.c with test_on_check_out := v }⟩

/-- `Builder::initialization_fail_fast`: unconditional set. -/
def Builder.initialization_fail_fast {E : Type} (b : Builder E) (v : Bool) : Builder E :=
  ⟨{ b.c with initialization_fail_fast := v }⟩

/-- `Builder::connection_timeout`: asserts
`connection_timeout > Duration::zero()` (panic modelled as `none`), then
stores the value. -/
def Builder.connection_timeout {E : Type} (b : Builder E) (d : Duration) : Option (Builder E) :=
  if d > Duration.zero then some ⟨{ b.c with connection_timeout := d }⟩ else none

/-- `Builder::error_handler`: unconditional replacement of the capability. -/
def Builder.error_handler {E : Type} (b : Builder E) (h : ErrorHandler E) : Builder E :=
  ⟨{ b.c with error_handler := h }⟩

/-- `Builder::build`: consumes the builder, returning the staged config. -/
def Builder.build {E : Type} (b : Builder E) : Config E := b.c

/-- One setter call on a `Builder<E>`, for reasoning about arbitrary
chains of builder operations. -/
inductive SetterCall (E : Type) where
  | pool_size (n : Nat)
  | helper_threads (n : Nat)
  | test_on_check_out (v : Bool)
  | initialization_fail_fast (v : Bool)
  | connection_timeout (d : Duration)
  | error_handler (h : ErrorHandler E)

/-- Running one setter call on a builder; a panicking call yields `none`. -/
def SetterCall.apply {E : Type} (b : Builder E) : SetterCall E → Option (Builder E)
  | .pool_size n => b.pool_size n
  | .helper_threads n => b.helper_threads n
  | .test_on_check_out v => some (b.test_on_check_out v)
  | .initialization_fail_fast v => some (b.initialization_fail_fast v)
  | .connection_timeout d => b.connection_timeout d
  | .error_handler h => some (b.error_handler h)

/-- Running a chain of setter calls; the chain fails as soon as one call
panics. -/
def runCalls {E : Type} (b : Builder E) : List (SetterCall E) → Option (Builder E)
  | [] => some b
  | s :: rest =>
    match SetterCall.apply b s with
    | none => none
    | some b2 => runCalls b2 rest

/-- The configuration field a setter call targets. -/
inductive ConfigField where
  | pool_size
  | helper_threads
  | test_on_check_out
  | initialization_fail_fast
  | connection_timeout
  | error_handler
deriving DecidableEq

/-- The field targeted by a setter call. -/
def SetterCall.field {E : Type} : SetterCall E → ConfigField
  | .pool_size _ => .pool_size
  | .helper_threads _ => .helper_threads
  | .test_on_check_out _ => .test_on_check_out
  | .initialization_fail_fast _ => .initialization_fail_fast
  | .connection_timeout _ => .connection_timeout
  | .error_handler _ => .error_handler

/-- The documented invariant of every constructed configuration. -/
def ConfigInv {E : Type} (c : Config E) : Prop :=
  1 ≤ c.pool_size ∧ 1 ≤ c.helper_threads ∧ Duration.zero < c.connection_timeout

/-- Each successful setter call preserves the configuration invariant. -/
theorem apply_preserves_inv {E : Type} (b b2 : Builder E) (s : SetterCall E)
    (hinv : ConfigInv b.c) (happ : SetterCall.apply b s = some b2) :
    ConfigInv b2.c := by
  obtain ⟨h1, h2, h3⟩ := hinv
  cases s <;>
    simp only [SetterCall.apply, Builder.pool_size, Builder.helper_threads,
      Builder.test_on_check_out, Builder.initialization_fail_fast,
      Builder.connection_timeout, Builder.error_handler] at happ
  case pool_size n =>
    split at happ
    · rename_i hn
      cases happ; exact ⟨hn, h2, h3⟩
    · cases happ
  case helper_threads n =>
    split at happ
    · rename_i hn
      cases happ; exact ⟨h1, hn, h3⟩
    · cases happ
  case test_on_check_out v =>
    cases happ; exact ⟨h1, h2, h3⟩
  case initialization_fail_fast v =>
    cases happ; exact ⟨h1, h2, h3⟩
  case connection_timeout d =>
    split at happ
    · cases happ; exact ⟨h1, h2, by assumption⟩
    · cases happ
  case error_handler h =>
    cases happ; exact ⟨h1, h2, h3⟩

/-- A chain of successful setter calls preserves the invariant. -/
theorem runCalls_preserves_inv {E : Type} (calls : List (SetterCall E)) (b b2 : Builder E)
    (hinv : ConfigInv b.c) (hrun : runCalls b calls = some b2) :
    ConfigInv b2.c := by
  induction calls generalizing b with
  | nil =>
    simp only [runCalls] at hrun
    cases hrun; exact hinv
  | cons s rest ih =>
    simp only [runCalls] at hrun
    cases happ : SetterCall.apply b s with
    | none => rw [happ] at hrun; cases hrun
    | some bmid =>
      rw [happ] at hrun
      exact ih bmid (apply_preserves_inv b bmid s hinv happ) hrun

/-- The default configuration satisfies the invariant. -/
theorem default_inv (E : Type) : ConfigInv (Config.default E) := by
  refine ⟨?_, ?_, ?_⟩
  · show (1 : Nat) ≤ 10
    decide
  · show (1 : Nat) ≤ 3
    decide
  · show (0 : Int) < 30 * 1000000000
    decide

/-- Claim C1: every configuration constructible via `Config::default()`, or
via `Builder::new()` / `Config::builder()` followed by any sequence of
successful setter calls and `build()`, satisfies `pool_size >= 1`,
`helper_threads >= 1` and `connection_timeout > 0`; no successful builder
operation puts a violating value into the staged state. -/
theorem constructed_config_invariant {E : Type} (calls : List (SetterCall E)) (b : Builder E)
    (hrun : runCalls (Builder.new E) calls = some b) :
    (1 ≤ (Config.default E).pool_size ∧ 1 ≤ (Config.default E).helper_threads ∧
      Duration.zero < (Config.default E).connection_timeout) ∧
    (1 ≤ b.build.pool_size ∧ 1 ≤ b.build.helper_threads ∧
      Duration.zero < b.build.connection_timeout) :=
  ⟨default_inv E, runCalls_preserves_inv calls (Builder.new E) b (default_inv E) hrun⟩

/-- Witness for C1 at a concrete chain of two setter calls. -/
theorem constructed_config_invariant_witness :
    runCalls (Builder.new Unit)
        [SetterCall.pool_size 5, SetterCall.connection_timeout (Duration.seconds 1)]
      = some ⟨⟨5, 3, true, true, Duration.seconds 1, NoopErrorHandler⟩⟩
    ∧ ((1 ≤ (Config.default Unit).pool_size ∧ 1 ≤ (Config.default Unit).helper_threads ∧
        Duration.zero < (Config.default Unit).connection_timeout) ∧
      (1 ≤ (⟨⟨5, 3, true, true, Duration.seconds 1, NoopErrorHandler⟩⟩ : Builder Unit).build.pool_size ∧
        1 ≤ (⟨⟨5, 3, true, true, Duration.seconds 1, NoopErrorHandler⟩⟩ : Builder Unit).build.helper_threads ∧
        Duration.zero < (⟨⟨5, 3, true, true, Duration.seconds 1, NoopErrorHandler⟩⟩ : Builder Unit).build.connection_timeout)) :=
  ⟨rfl,
    constructed_config_invariant
      [SetterCall.pool_size 5, SetterCall.connection_timeout (Duration.seconds 1)]
      ⟨⟨5, 3, true, true, Duration.seconds 1, NoopErrorHandler⟩⟩ rfl⟩

/-- Claim C2: `pool_size(0)`, `helper_threads(0)`, and `connection_timeout(d)`
with `d` not strictly greater than the zero duration fail at the setter call
(no builder is returned), so no configuration carrying such a value is
produced. -/
theorem invalid_setter_rejected {E : Type} (b : Builder E) (d : Duration)
    (hd : ¬ Duration.zero < d) :
    b.pool_size 0 = none ∧ b.helper_threads 0 = none ∧ b.connection_timeout d = none := by
  refine ⟨rfl, rfl, ?_⟩
  unfold Builder.connection_timeout
  rw [if_neg hd]

/-- Witness for C2 at the default builder and the zero duration. -/
theorem invalid_setter_rejected_witness :
    ¬ Duration.zero < Duration.zero
    ∧ ((Builder.new Unit).pool_size 0 = none
      ∧ (Builder.new Unit).helper_threads 0 = none
      ∧ (Builder.new Unit).connection_timeout Duration.zero = none) :=
  ⟨by decide, invalid_setter_rejected (Builder.new Unit) Duration.zero (by decide)⟩

/-- Claim C3: for every positive `n`, a valid value passed to `pool_size` or
`helper_threads` is stored and returned unchanged by the matching accessor
after `build()`. -/
theorem valid_setter_roundtrip {E : Type} (n m : Nat) (hn : 0 < n) (hm : 0 < m) :
    ((Builder.new E).pool_size n |>.map fun b => b.build.pool_size) = some n
    ∧ ((Builder.new E).helper_threads m |>.map fun b => b.build.helper_threads) = some m := by
  constructor
  · unfold Builder.pool_size
    rw [if_pos hn]
    rfl
  · unfold Builder.helper_threads
    rw [if_pos hm]
    rfl

/-- Witness for C3 at `n = 5`, `m = 7`. -/
theorem valid_setter_roundtrip_witness :
    (0 < 5 ∧ 0 < 7)
    ∧ (((Builder.new Unit).pool_size 5 |>.map fun b => b.build.pool_size) = some 5
      ∧ ((Builder.new Unit).helper_threads 7 |>.map fun b => b.build.helper_threads) = some 7) :=
  ⟨by decide, valid_setter_roundtrip 5 7 (by decide) (by decide)⟩

/-- Claim C4: for every duration strictly greater than zero, the value passed
to `connection_timeout` is stored and returned unchanged by the accessor
after `build()`. -/
theorem connection_timeout_roundtrip {E : Type} (d : Duration) (hd : Duration.zero < d) :
    ((Builder.new E).connection_timeout d |>.map fun b => b.build.connection_timeout) = some d := by
  unfold Builder.connection_timeout
  rw [if_pos hd]
  rfl

/-- Witness for C4 at `d = 1` second. -/
theorem connection_timeout_roundtrip_witness :
    Duration.zero < Duration.seconds 1
    ∧ ((Builder.new Unit).connection_timeout (Duration.seconds 1)
        |>.map fun b => b.build.connection_timeout) = some (Duration.seconds 1) :=
  ⟨by decide, connection_timeout_roundtrip (Duration.seconds 1) (by decide)⟩

/-- Claim C5: `Config::default()` yields exactly pool_size = 10,
helper_threads = 3, test_on_check_out = true, initialization_fail_fast =
true, connection_timeout = 30 seconds, and a no-op error handler with no
observable effect on any error value. -/
theorem default_config_values (E : Type) :
    (Config.default E).pool_size = 10
    ∧ (Config.default E).helper_threads = 3
    ∧ (Config.default E).test_on_check_out = true
    ∧ (Config.default E).initialization_fail_fast = true
    ∧ (Config.default E).connection_timeout = Duration.seconds 30
    ∧ ∀ e : E, (Config.default E).error_handler e = [] :=
  ⟨rfl, rfl, rfl, rfl, rfl, fun _ => rfl⟩

/-- Claim C6: `build()` is total (no failure mode, no validation) and
returns exactly the staged configuration, every field unchanged. -/
theorem build_returns_staged {E : Type} (b : Builder E) :
    b.build = b.c
    ∧ b.build.pool_size = b.c.pool_size
    ∧ b.build.helper_threads = b.c.helper_threads
    ∧ b.build.test_on_check_out = b.c.test_on_check_out
    ∧ b.build.initialization_fail_fast = b.c.initialization_fail_fast
    ∧ b.build.connection_timeout = b.c.connection_timeout
    ∧ b.build.error_handler = b.c.error_handler :=
  ⟨rfl, rfl, rfl, rfl, rfl, rfl, rfl⟩

/-- Claim C7: calling the same setter twice with different valid values
leaves only the last value in effect, for each of the six setters. -/
theorem setter_last_call_wins {E : Type} (n1 n2 m1 m2 : Nat) (v1 v2 w1 w2 : Bool)
    (d1 d2 : Duration) (g1 g2 : ErrorHandler E)
    (hn1 : 0 < n1) (hn2 : 0 < n2) (hm1 : 0 < m1) (hm2 : 0 < m2)
    (hd1 : Duration.zero < d1) (hd2 : Duration.zero < d2) :
    (((Builder.new E).pool_size n1).bind (fun b => b.pool_size n2)
        |>.map fun b => b.build.pool_size) = some n2
    ∧ (((Builder.new E).helper_threads m1).bind (fun b => b.helper_threads m2)
        |>.map fun b => b.build.helper_threads) = some m2
    ∧ (((Builder.new E).test_on_check_out v1).test_on_check_out v2).build.test_on_check_out = v2
    ∧ (((Builder.new E).initialization_fail_fast w1).initialization_fail_fast w2).build.initialization_fail_fast = w2
    ∧ (((Builder.new E).connection_timeout d1).bind (fun b => b.connection_timeout d2)
        |>.map fun b => b.build.connection_timeout) = some d2
    ∧ (((Builder.new E).error_handler g1).error_handler g2).build.error_handler = g2 := by
  refine ⟨?_, ?_, rfl, rfl, ?_, rfl⟩
  · simp [Builder.pool_size, Builder.build, hn1, hn2]
  · simp [Builder.helper_threads, Builder.build, hm1, hm2]
  · simp [Builder.connection_timeout, Builder.build, hd1, hd2]

/-- Witness for C7 at concrete values for every setter. -/
theorem setter_last_call_wins_witness :
    (0 < 5 ∧ 0 < 7 ∧ 0 < 2 ∧ 0 < 4
      ∧ Duration.zero < Duration.seconds 1 ∧ Duration.zero < Duration.seconds 2)
    ∧ ((((Builder.new Unit).pool_size 5).bind (fun b => b.pool_size 7)
          |>.map fun b => b.build.pool_size) = some 7
      ∧ (((Builder.new Unit).helper_threads 2).bind (fun b => b.helper_threads 4)
          |>.map fun b => b.build.helper_threads) = some 4
      ∧ (((Builder.new Unit).test_on_check_out true).test_on_check_out false).build.test_on_check_out = false
      ∧ (((Builder.new Unit).initialization_fail_fast true).initialization_fail_fast false).build.initialization_fail_fast = false
      ∧ (((Builder.new Unit).connection_timeout (Duration.seconds 1)).bind
            (fun b => b.connection_timeout (Duration.seconds 2))
          |>.map fun b => b.build.connection_timeout) = some (Duration.seconds 2)
      ∧ (((Builder.new Unit).error_handler NoopErrorHandler).error_handler
            (fun _ => ["handled"])).build.error_handler = (fun _ => ["handled"])) :=
  ⟨⟨by decide, by decide, by decide, by decide, by decide, by decide⟩,
    setter_last_call_wins 5 7 2 4 true false true false
      (Duration.seconds 1) (Duration.seconds 2) NoopErrorHandler (fun _ => ["handled"])
      (by decide) (by decide) (by decide) (by decide) (by decide) (by decide)⟩

/-- Claim C8: setter calls targeting distinct configuration fields commute:
running them in either order over any builder yields the same final staged
configuration (or fails in both orders). -/
theorem distinct_setters_commute {E : Type} (b : Builder E) (s1 s2 : SetterCall E)
    (hne : s1.field ≠ s2.field) :
    (SetterCall.apply b s1).bind (fun b2 => SetterCall.apply b2 s2)
      = (SetterCall.apply b s2).bind (fun b2 => SetterCall.apply b2 s1) := by
  cases s1 <;> cases s2 <;>
    first
    | exact absurd rfl hne
    | (simp only [SetterCall.apply, Builder.pool_size, Builder.helper_threads,
        Builder.test_on_check_out, Builder.initialization_fail_fast,
        Builder.connection_timeout, Builder.error_handler]
       split_ifs <;> rfl)
    | rfl

/-- Witness for C8 at `pool_size 5` against `helper_threads 7`. -/
theorem distinct_setters_commute_witness :
    (SetterCall.pool_size 5 : SetterCall Unit).field
      ≠ (SetterCall.helper_threads 7 : SetterCall Unit).field
    ∧ (SetterCall.apply (Builder.new Unit) (SetterCall.pool_size 5)).bind
          (fun b2 => SetterCall.apply b2 (SetterCall.helper_threads 7))
        = (SetterCall.apply (Builder.new Unit) (SetterCall.helper_threads 7)).bind
          (fun b2 => SetterCall.apply b2 (SetterCall.pool_size 5)) :=
  ⟨by decide,
    distinct_setters_commute (Builder.new Unit)
      (SetterCall.pool_size 5) (SetterCall.helper_threads 7) (by decide)⟩

/-- Claim C9: `error_handler(h)` never fails, installs `h` so that
`build().error_handler()` is observably `h`, and the previous handler is
completely replaced (the resulting builder is determined by the other
fields and `h` alone). -/
theorem error_handler_replaced {E : Type} (b : Builder E) (h : ErrorHandler E) :
    (b.error_handler h).build.error_handler = h
    ∧ b.error_handler h = ⟨{ b.c with error_handler := h }⟩
    ∧ ∀ e : E, (b.error_handler h).build.error_handler e = h e :=
  ⟨rfl, rfl, fun _ => rfl⟩

/-- Inversion for a successful `pool_size` call. -/
theorem pool_size_some {E : Type} (b b1 : Builder E) (n : Nat)
    (h : b.pool_size n = some b1) : b1 = ⟨{ b.c with pool_size := n }⟩ := by
  unfold Builder.pool_size at h
  split at h
  · exact (Option.some.inj h).symm
  · cases h

/-- Inversion for a successful `helper_threads` call. -/
theorem helper_threads_some {E : Type} (b b1 : Builder E) (n : Nat)
    (h : b.helper_threads n = some b1) : b1 = ⟨{ b.c with helper_threads := n }⟩ := by
  unfold Builder.helper_threads at h
  split at h
  · exact (Option.some.inj h).symm
  · cases h

/-- Inversion for a successful `connection_timeout` call. -/
theorem connection_timeout_some {E : Type} (b b1 : Builder E) (d : Duration)
    (h : b.connection_timeout d = some b1) : b1 = ⟨{ b.c with connection_timeout := d }⟩ := by
  unfold Builder.connection_timeout at h
  split at h
  · exact (Option.some.inj h).symm
  · cases h

/-- Claim C10: frame property of every setter — each of the six setters,
when it succeeds, changes only its own field of the staged configuration
and leaves the other five fields (including the error handler) unchanged. -/
theorem setter_frame {E : Type} (b b1 b2 b3 : Builder E) (n m : Nat) (d : Duration)
    (v w : Bool) (g : ErrorHandler E)
    (hp : b.pool_size n = some b1) (hh : b.helper_threads m = some b2)
    (hc : b.connection_timeout d = some b3) :
    (b1.c.pool_size = n ∧ b1.c.helper_threads = b.c.helper_threads
      ∧ b1.c.test_on_check_out = b.c.test_on_check_out
      ∧ b1.c.initialization_fail_fast = b.c.initialization_fail_fast
      ∧ b1.c.connection_timeout = b.c.connection_timeout
      ∧ b1.c.error_handler = b.c.error_handler)
    ∧ (b2.c.helper_threads = m ∧ b2.c.pool_size = b.c.pool_size
      ∧ b2.c.test_on_check_out = b.c.test_on_check_out
      ∧ b2.c.initialization_fail_fast = b.c.initialization_fail_fast
      ∧ b2.c.connection_timeout = b.c.connection_timeout
      ∧ b2.c.error_handler = b.c.error_handler)
    ∧ (b3.c.connection_timeout = d ∧ b3.c.pool_size = b.c.pool_size
      ∧ b3.c.helper_threads = b.c.helper_threads
      ∧ b3.c.test_on_check_out = b.c.test_on_check_out
      ∧ b3.c.initialization_fail_fast = b.c.initialization_fail_fast
      ∧ b3.c.error_handler = b.c.error_handler)
    ∧ ((b.test_on_check_out v).c.test_on_check_out = v
      ∧ (b.test_on_check_out v).c.pool_size = b.c.pool_size
      ∧ (b.test_on_check_out v).c.helper_threads = b.c.helper_threads
      ∧ (b.test_on_check_out v).c.initialization_fail_fast = b.c.initialization_fail_fast
      ∧ (b.test_on_check_out v).c.connection_timeout = b.c.connection_timeout
      ∧ (b.test_on_check_out v).c.error_handler = b.c.error_handler)
    ∧ ((b.initialization_fail_fast w).c.initialization_fail_fast = w
      ∧ (b.initialization_fail_fast w).c.pool_size = b.c.pool_size
      ∧ (b.initialization_fail_fast w).c.helper_threads = b.c.helper_threads
      ∧ (b.initialization_fail_fast w).c.test_on_check_out = b.c.test_on_check_out
      ∧ (b.initialization_fail_fast w).c.connection_timeout = b.c.connection_timeout
      ∧ (b.initialization_fail_fast w).c.error_handler = b.c.error_handler)
    ∧ ((b.error_handler g).c.error_handler = g
      ∧ (b.error_handler g).c.pool_size = b.c.pool_size
      ∧ (b.error_handler g).c.helper_threads = b.c.helper_threads
      ∧ (b.error_handler g).c.test_on_check_out = b.c.test_on_check_out
      ∧ (b.error_handler g).c.initialization_fail_fast = b.c.initialization_fail_fast
      ∧ (b.error_handler g).c.connection_timeout = b.c.connection_timeout) := by
  have e1 := pool_size_some b b1 n hp
  have e2 := helper_threads_some b b2 m hh
  have e3 := connection_timeout_some b b3 d hc
  subst e1
  subst e2
  subst e3
  exact ⟨⟨rfl, rfl, rfl, rfl, rfl, rfl⟩, ⟨rfl, rfl, rfl, rfl, rfl, rfl⟩,
    ⟨rfl, rfl, rfl, rfl, rfl, rfl⟩, ⟨rfl, rfl, rfl, rfl, rfl, rfl⟩,
    ⟨rfl, rfl, rfl, rfl, rfl, rfl⟩, ⟨rfl, rfl, rfl, rfl, rfl, rfl⟩⟩

/-- Witness for C10 at the default builder and concrete setter arguments. -/
theorem setter_frame_witness :
    ((Builder.new Unit).pool_size 2
        = some ⟨⟨2, 3, true, true, Duration.seconds 30, NoopErrorHandler⟩⟩)
    ∧ ((Builder.new Unit).helper_threads 4
        = some ⟨⟨10, 4, true, true, Duration.seconds 30, NoopErrorHandler⟩⟩)
    ∧ ((Builder.new Unit).connection_timeout (Duration.seconds 1)
        = some ⟨⟨10, 3, true, true, Duration.seconds 1, NoopErrorHandler⟩⟩)
    ∧ (⟨⟨2, 3, true, true, Duration.seconds 30, NoopErrorHandler⟩⟩ : Builder Unit).c.helper_threads
        = (Builder.new Unit).c.helper_threads :=
  ⟨rfl, rfl, rfl,
    (setter_frame (Builder.new Unit)
      ⟨⟨2, 3, true, true, Duration.seconds 30, NoopErrorHandler⟩⟩
      ⟨⟨10, 4, true, true, Duration.seconds 30, NoopErrorHandler⟩⟩
      ⟨⟨10, 3, true, true, Duration.seconds 1, NoopErrorHandler⟩⟩
      2 4 (Duration.seconds 1) true true NoopErrorHandler
      rfl rfl rfl).1.2.1⟩
